import Mathlib

/-
Verification of the AetherForge perception node (Rust) against its
natural-language specification, via a shallow embedding in Lean 4.

Conventions of the embedding:
* Rust `f32` values are modelled as rationals (`ℚ`); all arithmetic in the
  decode / threshold pipeline is exact.
* Rust `Instant`s and millisecond durations are modelled as natural numbers
  (milliseconds); `Instant::duration_since` saturates at zero, which matches
  truncated subtraction on `ℕ`.
* Fallible Rust code (`Result<T, PerceptionError>`) is modelled with
  `Except PerceptionError`.
* External effects (the ONNX session, bincode serialization, compression,
  socket sends) are passed in as explicit oracle arguments, so the embedded
  functions are pure and executable.
-/

namespace AetherForge

/-- Rust f32, modelled as an exact rational. -/
abbrev F32 := ℚ

/-- Error enum from src/perception-node/src/error.rs (the variants the
embedded code constructs). -/
inductive PerceptionError where
  | CameraError : String → PerceptionError
  | InferenceError : String → PerceptionError
  | MessagingError : String → PerceptionError
deriving DecidableEq

/-- Axis-aligned box, from src/common/src/types.rs (struct BBox). -/
structure BBox where
  xmin : F32
  ymin : F32
  xmax : F32
  ymax : F32
deriving DecidableEq

/-- Constructor BBox::new from src/common/src/types.rs: stores the four
coordinates unchecked. -/
def BBox.new (xmin ymin xmax ymax : F32) : BBox :=
  { xmin := xmin, ymin := ymin, xmax := xmax, ymax := ymax }

/-- BBox::width from src/common/src/types.rs. -/
def BBox.width (b : BBox) : F32 := b.xmax - b.xmin

/-- BBox::height from src/common/src/types.rs. -/
def BBox.height (b : BBox) : F32 := b.ymax - b.ymin

/-- BBox::area from src/common/src/types.rs. -/
def BBox.area (b : BBox) : F32 := b.width * b.height

/-- Detection record from src/common/src/types.rs. -/
structure Detection where
  bbox : BBox
  confidence : F32
  class_id : ℕ
  class_label : String
  tracker_id : Option ℕ
deriving DecidableEq

/-- Camera frame from src/common/src/types.rs (struct CameraFrame).  The
field camera_id is not present in types.rs but is read by
ort_engine.rs (frame.camera_id at line 282); it is included here so the
engine's use of it can be embedded. -/
structure CameraFrame where
  data : List ℕ
  width : ℕ
  height : ℕ
  format : String
  timestamp : ℕ
  sequence_num : ℕ
  camera_id : String
deriving DecidableEq

/-- Perception frame from src/common/src/types.rs (struct PerceptionFrame).
The optional intrinsics/extrinsics are irrelevant to the claims and kept
as unit options. -/
structure PerceptionFrame where
  frame_id : ℕ
  timestamp : ℕ
  source_camera_id : String
  image_width : ℕ
  image_height : ℕ
  model_version : String
  inference_time_ms : F32
  detections : List Detection
  camera_intrinsics : Option Unit
  camera_extrinsics : Option Unit
deriving DecidableEq

/-- Modelled from the spec: the constructor PerceptionFrame::new is not in
src/ (it appears only commented out in src/common/src/types.rs and is
called with seven arguments in ort_engine.rs lines 278-286).  It builds a
frame with the given identifiers, empty detections and zero inference
time, per the commented-out implementation and the spec's data model.
The sequence-number argument passed at the call site has no field in the
struct and is not stored. -/
def PerceptionFrame.new (frame_id : ℕ) (_sequence_num : ℕ) (timestamp : ℕ)
    (source_camera_id : String) (image_width image_height : ℕ)
    (model_version : String) : PerceptionFrame :=
  { frame_id := frame_id
    timestamp := timestamp
    source_camera_id := source_camera_id
    image_width := image_width
    image_height := image_height
    model_version := model_version
    inference_time_ms := 0
    detections := []
    camera_intrinsics := none
    camera_extrinsics := none }

/-- The fields of InferenceConfig (src/perception-node/src/config.rs) read
by the embedded engine code. -/
structure InferenceConfig where
  model_version : String
  confidence_threshold : F32
  nms_threshold : F32
  class_names : List String
  max_batch_size : ℕ
  batch_timeout_ms : ℕ
deriving DecidableEq

/-!  Postprocessing (OrtEngine::postprocess_batch, ort_engine.rs 205-295).
The raw model output is a rank-3 f32 tensor indexed [batch, candidate,
channel]; it is modelled as a shape pair plus a value function. -/

/-- Raw detection-head output tensor: shape1 = number of candidates
(shape()[1] in the code), shape2 = channels per candidate (shape()[2]),
val b c k = the f32 at index [b, c, k]. -/
structure OutputTensor where
  shape1 : ℕ
  shape2 : ℕ
  val : ℕ → ℕ → ℕ → F32

/-- Box decode of ort_engine.rs lines 233-236: normalized center-size
candidate to pixel-space corners, scaled by the source frame's
width and height. -/
def decodeBox (x y w h : F32) (width height : ℕ) : BBox :=
  BBox.new ((x - w / 2) * width) ((y - h / 2) * height)
    ((x + w / 2) * width) ((y + h / 2) * height)

/-- Argmax loop of ort_engine.rs lines 238-249: scan channels 5..5+nc
with initial (max_class, max_score) = (0, 0), strict improvement. -/
def bestClass (out : OutputTensor) (i j : ℕ) : ℕ × F32 :=
  (List.range (out.shape2 - 5)).foldl
    (fun acc c => if acc.2 < out.val i j (5 + c) then (c, out.val i j (5 + c)) else acc)
    (0, 0)

/-- Body of the candidate loop of ort_engine.rs lines 219-272 for batch item
i, candidate j: none when the candidate is discarded by either
confidence check, otherwise the Detection pushed. -/
def candidateDetection (cfg : InferenceConfig) (out : OutputTensor) (i : ℕ)
    (frame : CameraFrame) (j : ℕ) : Option Detection :=
  let confidence := out.val i j 4
  if confidence < cfg.confidence_threshold then none
  else
    let x := out.val i j 0
    let y := out.val i j 1
    let w := out.val i j 2
    let h := out.val i j 3
    let mc := bestClass out i j
    let final_confidence := confidence * mc.2
    if final_confidence < cfg.confidence_threshold then none
    else
      let class_label :=
        if mc.1 < cfg.class_names.length then cfg.class_names.getD mc.1 ""
        else "class_" ++ toString mc.1
      some { bbox := decodeBox x y w h frame.width frame.height
             confidence := final_confidence
             class_id := mc.1
             class_label := class_label
             tracker_id := none }

/-!  Non-max suppression.  OrtEngine::apply_nms is called at
ort_engine.rs line 275 but its definition is not in src/; it is modelled
from the spec below. -/

/-- Modelled from the spec: IoU, the intersection-over-union overlap ratio
between two boxes (glossary).  Division by zero in ℚ yields 0. -/
def iou (a b : BBox) : F32 :=
  let ix := max 0 (min a.xmax b.xmax - max a.xmin b.xmin)
  let iy := max 0 (min a.ymax b.ymax - max a.ymin b.ymin)
  let inter := ix * iy
  inter / (a.area + b.area - inter)

/-- Candidate d is suppressed by an already-kept detection k when both have
the same class and their IoU exceeds the threshold (spec section 4.1,
step 6). -/
def suppresses (thr : F32) (k d : Detection) : Bool :=
  k.class_id == d.class_id && decide (thr < iou k.bbox d.bbox)

/-- Greedy pass of the NMS: walk the confidence-sorted candidates, keep a
candidate unless a previously kept one suppresses it. -/
def nmsFilter (thr : F32) : List Detection → List Detection → List Detection
  | _, [] => []
  | kept, d :: rest =>
    if kept.any (fun k => suppresses thr k d) then nmsFilter thr kept rest
    else d :: nmsFilter thr (d :: kept) rest

/-- Confidence-descending order used to sort candidates before the greedy
pass. -/
def confGe (a b : Detection) : Prop := b.confidence ≤ a.confidence

instance : DecidableRel confGe :=
  fun a b => inferInstanceAs (Decidable (b.confidence ≤ a.confidence))

instance : IsTotal Detection confGe :=
  ⟨fun a b => le_total b.confidence a.confidence⟩

instance : IsTrans Detection confGe :=
  ⟨fun _ _ _ h1 h2 => le_trans h2 h1⟩

/-- Modelled from the spec: OrtEngine::apply_nms (called at ort_engine.rs
line 275, definition absent from src/).  Per spec section 4.1 step 6:
sort candidates by final confidence descending, then greedily keep a
candidate and suppress any later candidate of the same class whose IoU
with a kept box exceeds nms_threshold. -/
def apply_nms (thr : F32) (dets : List Detection) : List Detection :=
  nmsFilter thr [] (List.insertionSort confGe dets)

/-- Postprocessing of one batch item (the loop body of postprocess_batch,
ort_engine.rs 208-292): build the candidate list, apply NMS, and create
the PerceptionFrame.  elapsedMs stands for the evaluated
start_time.elapsed() expression of line 289 (start_time is not in scope
there in the source; the spec reads it as wall time since batch
dispatch). -/
def postprocessFrame (cfg : InferenceConfig) (out : OutputTensor) (i : ℕ)
    (frame : CameraFrame) (elapsedMs : F32) : PerceptionFrame :=
  let detections :=
    (List.range out.shape1).filterMap (candidateDetection cfg out i frame)
  let detections := apply_nms cfg.nms_threshold detections
  let pf := PerceptionFrame.new 0 frame.sequence_num frame.timestamp
    frame.camera_id frame.width frame.height cfg.model_version
  { pf with detections := detections, inference_time_ms := elapsedMs }

/-- OrtEngine::postprocess_batch (ort_engine.rs 205-295): one
PerceptionFrame per input frame, in order. -/
def postprocessBatch (cfg : InferenceConfig) (out : OutputTensor)
    (frames : List CameraFrame) (elapsedMs : F32) : List PerceptionFrame :=
  frames.enum.map (fun p => postprocessFrame cfg out p.1 p.2 elapsedMs)

/-!  Batch assembly (struct BatchProcessor and OrtEngine::process_frame /
OrtEngine::process_batch, ort_engine.rs 26-30 and 125-177).  Instants are
milliseconds as naturals.  Preprocessing (OrtEngine::preprocess, called at
line 156 but absent from src/) and the ONNX session run are oracles: the
tensor type τ is abstract, pre may fail per frame and infer may fail per
batch, exactly like the fallible calls in the source. -/

/-- BatchProcessor state from ort_engine.rs lines 26-30. -/
structure BatchProcessor where
  max_batch_size : ℕ
  batch_timeout : ℕ
  pending_frames : List (CameraFrame × ℕ)
deriving DecidableEq

/-- Observable outcome of one engine call: the returned Result, the
post-call processor state, and the list of frames drained into an
inference batch by this call (none when no drain happened). -/
structure BatchOutcome where
  result : Except PerceptionError PerceptionFrame
  state : BatchProcessor
  dispatched : Option (List CameraFrame)

/-- OrtEngine::process_batch (ort_engine.rs 145-177).  The drain loop of
lines 155-159 removes every pending frame even when a preprocess call
fails partway (Vec::drain clears the drained range when the iterator is
dropped), so pending_frames is empty afterwards on every path out of the
nonempty case.  Only the first postprocessed result is returned (lines
173-176). -/
def processBatch {τ : Type} (cfg : InferenceConfig)
    (pre : CameraFrame → Except PerceptionError τ)
    (infer : List τ → Except PerceptionError OutputTensor)
    (elapsedMs : F32) (bp : BatchProcessor) : BatchOutcome :=
  if bp.pending_frames.isEmpty then
    { result := .error (.InferenceError "No frames to process")
      state := bp
      dispatched := none }
  else
    let frames := bp.pending_frames.map Prod.fst
    let cleared : BatchProcessor := { bp with pending_frames := [] }
    match frames.mapM pre with
    | .error e => { result := .error e, state := cleared, dispatched := some frames }
    | .ok tensors =>
      match infer tensors with
      | .error e => { result := .error e, state := cleared, dispatched := some frames }
      | .ok out =>
        match postprocessBatch cfg out frames elapsedMs with
        | [] =>
          { result := .error (.InferenceError "No results from batch")
            state := cleared
            dispatched := some frames }
        | r :: _ => { result := .ok r, state := cleared, dispatched := some frames }

/-- Flush-trigger comparison of ort_engine.rs lines 133-135, evaluated on
the processor state after the arriving frame was pushed: batch length has
reached max_batch_size, or the oldest buffered frame's age (saturating,
as Instant::duration_since) has reached batch_timeout. -/
def flushTrigger (bp : BatchProcessor) (now : ℕ) : Bool :=
  decide (bp.max_batch_size ≤ bp.pending_frames.length) ||
  decide (bp.batch_timeout ≤ now - ((bp.pending_frames.head?.map Prod.snd).getD now))

/-- OrtEngine::process_frame (ort_engine.rs 125-143): push the frame with
its arrival instant, evaluate the flush-trigger comparison, and call
process_batch — on both branches of the trigger (lines 136-138 and
140-142). -/
def processFrame {τ : Type} (cfg : InferenceConfig)
    (pre : CameraFrame → Except PerceptionError τ)
    (infer : List τ → Except PerceptionError OutputTensor)
    (elapsedMs : F32) (bp : BatchProcessor) (frame : CameraFrame)
    (now : ℕ) : BatchOutcome :=
  let bp1 : BatchProcessor :=
    { bp with pending_frames := bp.pending_frames ++ [(frame, now)] }
  if flushTrigger bp1 now then processBatch cfg pre infer elapsedMs bp1
  else processBatch cfg pre infer elapsedMs bp1

/-!  Publisher facade (src/perception-node/src/messaging/mod.rs).  The
primary and fallback adapters are trait objects whose send/connect calls
are external; each call's outcome is an oracle argument.  Whether a
fallback is configured is part of the state. -/

/-- ConnectionStatus from messaging/mod.rs lines 32-36. -/
inductive ConnectionStatus where
  | Connected
  | Disconnected
  | Degraded
deriving DecidableEq

/-- Outcome of one adapter call (send or connect). -/
abbrev SendResult := Except PerceptionError Unit

/-- State of MultiProtocolPublisher (messaging/mod.rs 24-30) relevant to
the failover logic: whether a fallback adapter is configured, and the
connection status. -/
structure MultiProtocolPublisher where
  hasFallback : Bool
  connection_status : ConnectionStatus
deriving DecidableEq

/-- MultiProtocolPublisher::try_publish (messaging/mod.rs 65-98): prim and
fall are the outcomes of the primary and fallback send attempts (fall is
consulted only when the primary fails and a fallback is configured). -/
def tryPublish (st : MultiProtocolPublisher) (prim fall : SendResult) :
    SendResult × MultiProtocolPublisher :=
  match prim with
  | .ok _ => (.ok (), { st with connection_status := .Connected })
  | .error e =>
    if st.hasFallback then
      match fall with
      | .ok _ => (.ok (), { st with connection_status := .Degraded })
      | .error e2 => (.error e2, { st with connection_status := .Disconnected })
    else (.error e, { st with connection_status := .Disconnected })

/-- MultiProtocolPublisher::connect (messaging/mod.rs 119-138): on primary
connect failure with a fallback configured, the fallback connect result
is propagated by the question-mark operator — its error, not the
primary's, reaches the caller, and connection_status is not written on
that path. -/
def connectMP (st : MultiProtocolPublisher) (prim fall : SendResult) :
    SendResult × MultiProtocolPublisher :=
  match prim with
  | .ok _ => (.ok (), { st with connection_status := .Connected })
  | .error e =>
    if st.hasFallback then
      match fall with
      | .ok _ => (.ok (), { st with connection_status := .Degraded })
      | .error e2 => (.error e2, st)
    else (.error e, st)

/-!  Sequenced ZeroMQ publisher (struct ZmqPublisher and
publish_perception_frame in messaging/mod.rs 170-260). -/

/-- MessageType from messaging/mod.rs 327-332. -/
inductive MessageType where
  | PerceptionFrame
  | FusionResult
  | SystemHealth
  | Alert
deriving DecidableEq

/-- MessageEnvelope from messaging/mod.rs 317-325. -/
structure MessageEnvelope where
  message_type : MessageType
  camera_id : String
  sequence_number : ℕ
  timestamp : ℕ
  compression : String
  original_size : ℕ
  compressed_size : ℕ
deriving DecidableEq

/-- State of ZmqPublisher (messaging/mod.rs 170-177): socket.is_some(),
the sequence counter, and the compression tag chosen at construction. -/
structure ZmqPublisher where
  socketConnected : Bool
  sequence_number : ℕ
  compressionTag : String
deriving DecidableEq

/-- ZmqPublisher::new (messaging/mod.rs 180-192): no socket yet, sequence
number zero. -/
def ZmqPublisher.new (compressionTag : String) : ZmqPublisher :=
  { socketConnected := false, sequence_number := 0, compressionTag := compressionTag }

/-- Oracle outcomes of the external calls made by one
publish_perception_frame invocation: bincode serialization of the frame,
compression, bincode serialization of the envelope, and the two socket
sends. -/
structure PublishIO where
  serialized : Except PerceptionError (List ℕ)
  compressed : Except PerceptionError (List ℕ)
  envelopeSerialized : Except PerceptionError (List ℕ)
  sendEnvelopeOk : Bool
  sendMessageOk : Bool

/-- ZmqPublisher::publish_perception_frame (messaging/mod.rs 221-260):
serialize, compress, build the envelope carrying the current sequence
number, serialize it, and — when a socket exists — send envelope then
payload; only after both sends succeed is sequence_number incremented.
On success the envelope that went out on the wire is returned as the
observable. -/
def publishPerceptionFrame (st : ZmqPublisher) (frame : PerceptionFrame)
    (io : PublishIO) : Except PerceptionError MessageEnvelope × ZmqPublisher :=
  match io.serialized with
  | .error e => (.error e, st)
  | .ok serialized =>
    match io.compressed with
    | .error e => (.error e, st)
    | .ok compressed =>
      let envelope : MessageEnvelope :=
        { message_type := .PerceptionFrame
          camera_id := frame.source_camera_id
          sequence_number := st.sequence_number
          timestamp := frame.timestamp
          compression := st.compressionTag
          original_size := serialized.length
          compressed_size := compressed.length }
      match io.envelopeSerialized with
      | .error e => (.error e, st)
      | .ok _ =>
        if st.socketConnected then
          if io.sendEnvelopeOk then
            if io.sendMessageOk then
              (.ok envelope, { st with sequence_number := st.sequence_number + 1 })
            else (.error (.MessagingError "Failed to send message"), st)
          else (.error (.MessagingError "Failed to send envelope"), st)
        else (.error (.MessagingError "Not connected"), st)

/-- Repeated publish calls on one publisher instance: threads the state
through a list of (frame, oracle) inputs and collects the envelopes of
the successful publishes, in order. -/
def runPublishes (st : ZmqPublisher) :
    List (PerceptionFrame × PublishIO) → ZmqPublisher × List MessageEnvelope
  | [] => (st, [])
  | (f, io) :: rest =>
    match publishPerceptionFrame st f io with
    | (.ok env, st1) =>
      let r := runPublishes st1 rest
      (r.1, env :: r.2)
    | (.error _, st1) => runPublishes st1 rest

/-!  Concrete fixtures (used by the counterexamples and witnesses). -/

/-- Inference configuration with the repo defaults that matter here
(confidence_threshold 0.5 as in config.rs line 299). -/
def cfgEx : InferenceConfig :=
  { model_version := "1.0", confidence_threshold := 1/2, nms_threshold := 1/2
    class_names := [], max_batch_size := 8, batch_timeout_ms := 100 }

/-- Detection-head output with zero candidates per batch item. -/
def outEmpty : OutputTensor := { shape1 := 0, shape2 := 5, val := fun _ _ _ => 0 }

/-- A 640x480 camera frame. -/
def frameEx (id : String) (seq : ℕ) : CameraFrame :=
  { data := [], width := 640, height := 480, format := "RGB"
    timestamp := 0, sequence_num := seq, camera_id := id }

/-- Preprocess oracle that always succeeds. -/
def preOk : CameraFrame → Except PerceptionError Unit := fun _ => .ok ()

/-- Inference oracle returning the candidate-free output. -/
def inferEmpty : List Unit → Except PerceptionError OutputTensor := fun _ => .ok outEmpty

/-- Configuration with one named class. -/
def cfgW : InferenceConfig :=
  { model_version := "1.0", confidence_threshold := 1/2, nms_threshold := 1/2
    class_names := ["robot"], max_batch_size := 8, batch_timeout_ms := 100 }

/-- Output tensor with a single candidate: objectness 1, single class score
1, box (cx, cy, w, h) = (1/2, 1/2, 1/5, 2/5). -/
def outW : OutputTensor :=
  { shape1 := 1, shape2 := 6
    val := fun _ _ k =>
      if k = 4 then 1 else if k = 5 then 1
      else if k = 2 then 1/5 else if k = 3 then 2/5 else 1/2 }

/-- A 640x480 frame for the single-candidate fixture. -/
def fW : CameraFrame := frameEx "cam0" 0

/-- The detection the pipeline emits from outW on fW. -/
def detW : Detection :=
  { bbox := BBox.new 256 144 384 336, confidence := 1, class_id := 0
    class_label := "robot", tracker_id := none }

/-!  Helper lemmas. -/

/-- The greedy NMS pass only ever drops elements: its output is a sublist
of its input. -/
theorem nmsFilter_sublist (thr : F32) :
    ∀ (l kept : List Detection), List.Sublist (nmsFilter thr kept l) l := by
  intro l
  induction l with
  | nil => intro kept; simp [nmsFilter]
  | cons d rest ih =>
    intro kept
    by_cases h : (kept.any fun k => suppresses thr k d) = true
    · simp only [nmsFilter, if_pos h]
      exact (ih kept).cons d
    · simp only [nmsFilter, if_neg h]
      exact (ih (d :: kept)).cons₂ d

/-- The greedy NMS pass is idempotent relative to any kept-prefix: every
survivor already survived against exactly the kept list it is re-checked
against on a second pass. -/
theorem nmsFilter_idem (thr : F32) :
    ∀ (l kept : List Detection),
      nmsFilter thr kept (nmsFilter thr kept l) = nmsFilter thr kept l := by
  intro l
  induction l with
  | nil => intro kept; simp [nmsFilter]
  | cons d rest ih =>
    intro kept
    by_cases h : (kept.any fun k => suppresses thr k d) = true
    · simp only [nmsFilter, if_pos h]
      exact ih kept
    · simp only [nmsFilter, if_neg h]
      rw [ih (d :: kept)]

/-- Every detection surviving NMS was one of the candidates. -/
theorem mem_of_mem_apply_nms {thr : F32} {d : Detection} {l : List Detection}
    (h : d ∈ apply_nms thr l) : d ∈ l := by
  unfold apply_nms at h
  have h1 : d ∈ List.insertionSort confGe l :=
    (nmsFilter_sublist thr (List.insertionSort confGe l) []).subset h
  exact (List.mem_insertionSort confGe).mp h1

/-- A candidate the loop keeps has confidence at least the threshold: the
stored confidence is obj_conf * max_score and the second check passed. -/
theorem candidateDetection_conf {cfg : InferenceConfig} {out : OutputTensor}
    {i j : ℕ} {frame : CameraFrame} {d : Detection}
    (h : candidateDetection cfg out i frame j = some d) :
    cfg.confidence_threshold ≤ d.confidence := by
  simp only [candidateDetection] at h
  split at h
  · exact absurd h (by simp)
  · split at h
    · exact absurd h (by simp)
    · next h2 =>
      obtain rfl := Option.some.inj h
      exact not_lt.mp h2

/-- Evaluation of the single-candidate fixture: the loop keeps exactly
detW. -/
theorem candW : candidateDetection cfgW outW 0 fW 0 = some detW := by
  unfold candidateDetection cfgW outW fW frameEx detW bestClass decodeBox BBox.new
  norm_num [List.range_succ]

/-- Evaluation of the single-candidate fixture through NMS: the emitted
frame holds exactly detW. -/
theorem detectionsW : (postprocessFrame cfgW outW 0 fW 0).detections = [detW] := by
  unfold postprocessFrame
  have h1 : outW.shape1 = 1 := rfl
  rw [h1]
  simp only [List.range_succ, List.range_zero, List.nil_append, List.filterMap_cons,
    List.filterMap_nil, candW]
  simp [apply_nms, List.insertionSort, List.orderedInsert, nmsFilter]

/-- On a nonempty pending buffer, process_batch always drains it (the Rust
drain clears the vector on the error paths too) and always dispatches
exactly the buffered frames. -/
theorem processBatch_clears {τ : Type} (cfg : InferenceConfig)
    (pre : CameraFrame → Except PerceptionError τ)
    (infer : List τ → Except PerceptionError OutputTensor)
    (elapsedMs : F32) (bp : BatchProcessor) (h : bp.pending_frames ≠ []) :
    (processBatch cfg pre infer elapsedMs bp).state.pending_frames = [] ∧
    (processBatch cfg pre infer elapsedMs bp).dispatched
      = some (bp.pending_frames.map Prod.fst) := by
  unfold processBatch
  rw [if_neg (by simpa [List.isEmpty_iff] using h)]
  dsimp only
  constructor
  · split
    · rfl
    · split
      · rfl
      · split
        · rfl
        · rfl
  · split
    · rfl
    · split
      · rfl
      · split
        · rfl
        · rfl

/-- A fully successful publish emits the pre-call sequence number and
increments the counter by one. -/
theorem publishPF_ok_seq {st st1 : ZmqPublisher} {f : PerceptionFrame}
    {io : PublishIO} {env : MessageEnvelope}
    (h : publishPerceptionFrame st f io = (.ok env, st1)) :
    env.sequence_number = st.sequence_number ∧
    st1.sequence_number = st.sequence_number + 1 := by
  unfold publishPerceptionFrame at h
  split at h
  · simp at h
  · split at h
    · simp at h
    · dsimp only at h
      split at h
      · simp at h
      · split at h
        · split at h
          · split at h
            · injection h with h1 h2
              injection h1 with h1
              subst h1
              subst h2
              exact ⟨rfl, rfl⟩
            · simp at h
          · simp at h
        · simp at h

/-- A failed publish leaves the publisher state untouched (every error
path returns before the increment). -/
theorem publishPF_err_seq {st st1 : ZmqPublisher} {f : PerceptionFrame}
    {io : PublishIO} {e : PerceptionError}
    (h : publishPerceptionFrame st f io = (.error e, st1)) :
    st1 = st := by
  unfold publishPerceptionFrame at h
  split at h
  · injection h with h1 h2; exact h2.symm
  · split at h
    · injection h with h1 h2; exact h2.symm
    · dsimp only at h
      split at h
      · injection h with h1 h2; exact h2.symm
      · split at h
        · split at h
          · split at h
            · simp at h
            · injection h with h1 h2; exact h2.symm
          · injection h with h1 h2; exact h2.symm
        · injection h with h1 h2; exact h2.symm

/-- Over any run of publish calls, the counter advances by the number of
successes, and the envelopes of the successful publishes carry the
consecutive numbers starting at the initial counter. -/
theorem runPublishes_spec (inputs : List (PerceptionFrame × PublishIO)) :
    ∀ st0 : ZmqPublisher,
      (runPublishes st0 inputs).1.sequence_number
          = st0.sequence_number + (runPublishes st0 inputs).2.length ∧
      (runPublishes st0 inputs).2.map MessageEnvelope.sequence_number
          = (List.range (runPublishes st0 inputs).2.length).map
              (st0.sequence_number + ·) := by
  induction inputs with
  | nil => intro st0; simp [runPublishes]
  | cons p rest ih =>
    intro st0
    obtain ⟨f, io⟩ := p
    rcases hpub : publishPerceptionFrame st0 f io with ⟨res, st1⟩
    cases res with
    | ok env =>
      obtain ⟨henv, hseq⟩ := publishPF_ok_seq hpub
      obtain ⟨ih1, ih2⟩ := ih st1
      have hrun : runPublishes st0 ((f, io) :: rest)
          = ((runPublishes st1 rest).1, env :: (runPublishes st1 rest).2) := by
        rw [runPublishes, hpub]
      rw [hrun]
      dsimp only
      constructor
      · simp only [List.length_cons]
        rw [ih1, hseq]
        omega
      · simp only [List.map_cons, List.length_cons, List.range_succ_eq_map,
          List.map_map]
        rw [ih2, henv, hseq]
        refine List.cons_eq_cons.mpr ⟨by omega, ?_⟩
        apply List.map_congr_left
        intro a _
        simp only [Function.comp]
        omega
    | error e =>
      have hst := publishPF_err_seq hpub
      have hrun : runPublishes st0 ((f, io) :: rest) = runPublishes st1 rest := by
        rw [runPublishes, hpub]
      rw [hrun, hst]
      exact ih st0

/-!  Claim theorems. -/

/-- C1.  The claim is half right, half a code bug: postprocess_batch does
emit exactly one PerceptionFrame per input frame, but process_batch
returns only the first of them (ort_engine.rs 173-176, against its own
comment that all results should be returned), so for the two-frame batch
below the caller that submitted the second frame never receives its
PerceptionFrame — that result is produced, is distinct from the returned
one, and is discarded. -/
theorem process_batch_returns_only_first_result :
    (postprocessBatch cfgEx outEmpty [frameEx "cam0" 0, frameEx "cam1" 1] 0).length = 2 ∧
    (processFrame cfgEx preOk inferEmpty 0
        { max_batch_size := 2, batch_timeout := 100
          pending_frames := [(frameEx "cam0" 0, 0)] }
        (frameEx "cam1" 1) 0).result
      = .ok (postprocessFrame cfgEx outEmpty 0 (frameEx "cam0" 0) 0) ∧
    postprocessFrame cfgEx outEmpty 1 (frameEx "cam1" 1) 0
      ∈ postprocessBatch cfgEx outEmpty [frameEx "cam0" 0, frameEx "cam1" 1] 0 ∧
    postprocessFrame cfgEx outEmpty 1 (frameEx "cam1" 1) 0
      ≠ postprocessFrame cfgEx outEmpty 0 (frameEx "cam0" 0) 0 := by
  refine ⟨rfl, rfl, ?_, ?_⟩
  · exact List.mem_cons_of_mem _ (List.mem_cons_self _ _)
  · intro h
    have := congrArg PerceptionFrame.source_camera_id h
    simp [postprocessFrame, PerceptionFrame.new, frameEx] at this

/-- C2 counterexample.  With max_batch_size = 100 and batch_timeout =
100ms, a single frame submitted to an empty buffer at time 0 satisfies
neither flush trigger, yet process_frame dispatches it immediately: the
trigger comparison of lines 133-135 is computed but both branches flush
(lines 136-142). -/
theorem process_frame_flushes_without_trigger :
    flushTrigger { max_batch_size := 100, batch_timeout := 100
                   pending_frames := [(frameEx "cam0" 0, 0)] } 0 = false ∧
    (processFrame cfgEx preOk inferEmpty 0
        { max_batch_size := 100, batch_timeout := 100, pending_frames := [] }
        (frameEx "cam0" 0) 0).dispatched = some [frameEx "cam0" 0] := by
  constructor
  · rfl
  · rfl

/-- C2 as amended.  Every call to process_frame flushes unconditionally:
whatever the configuration, the buffered frames and the arrival time,
the batch dispatched by the call is exactly the previously pending
frames followed by the frame just submitted. -/
theorem process_frame_always_flushes {τ : Type} (cfg : InferenceConfig)
    (pre : CameraFrame → Except PerceptionError τ)
    (infer : List τ → Except PerceptionError OutputTensor)
    (elapsedMs : F32) (bp : BatchProcessor) (frame : CameraFrame) (now : ℕ) :
    (processFrame cfg pre infer elapsedMs bp frame now).dispatched
      = some ((bp.pending_frames ++ [(frame, now)]).map Prod.fst) := by
  simp only [processFrame]
  rw [ite_self]
  exact (processBatch_clears cfg pre infer elapsedMs _ (by simp)).2

/-- C3.  try_publish: a primary success yields Connected and Ok; a primary
failure followed by a configured, successful fallback yields Degraded
and Ok; both failing yields Disconnected and an error; a primary failure
with no fallback yields Disconnected and an error. -/
theorem try_publish_failover_statuses (fb : Bool) (s : ConnectionStatus)
    (e e2 : PerceptionError) (fall : SendResult) :
    tryPublish ⟨fb, s⟩ (.ok ()) fall = (.ok (), ⟨fb, .Connected⟩) ∧
    tryPublish ⟨true, s⟩ (.error e) (.ok ()) = (.ok (), ⟨true, .Degraded⟩) ∧
    tryPublish ⟨true, s⟩ (.error e) (.error e2) = (.error e2, ⟨true, .Disconnected⟩) ∧
    tryPublish ⟨false, s⟩ (.error e) fall = (.error e, ⟨false, .Disconnected⟩) :=
  ⟨rfl, rfl, rfl, rfl⟩

/-- C4 counterexample.  When the primary connect fails and the configured
fallback connect also fails, the error returned to the caller is the
fallback's error, not the original primary error as claimed (the source
propagates the fallback result with the question-mark operator at
messaging/mod.rs line 128). -/
theorem connect_propagates_fallback_error :
    (connectMP ⟨true, .Disconnected⟩ (.error (.MessagingError "primary failed"))
        (.error (.MessagingError "fallback failed"))).1
      = .error (.MessagingError "fallback failed") ∧
    PerceptionError.MessagingError "fallback failed"
      ≠ PerceptionError.MessagingError "primary failed" ∧
    (connectMP ⟨true, .Disconnected⟩ (.error (.MessagingError "primary failed"))
        (.error (.MessagingError "fallback failed"))).2.connection_status
      = .Disconnected :=
  ⟨rfl, by decide, rfl⟩

/-- C4 as amended.  connect(): primary success yields Connected; primary
failure with a configured fallback connects the fallback — success
yields Degraded, failure propagates the fallback's error with the status
left unchanged (so it remains Disconnected when it was Disconnected);
with no fallback the primary error propagates, status unchanged. -/
theorem connect_failover_statuses (fb : Bool) (s : ConnectionStatus)
    (e e2 : PerceptionError) (fall : SendResult) :
    connectMP ⟨fb, s⟩ (.ok ()) fall = (.ok (), ⟨fb, .Connected⟩) ∧
    connectMP ⟨true, s⟩ (.error e) (.ok ()) = (.ok (), ⟨true, .Degraded⟩) ∧
    connectMP ⟨true, s⟩ (.error e) (.error e2) = (.error e2, ⟨true, s⟩) ∧
    connectMP ⟨false, s⟩ (.error e) fall = (.error e, ⟨false, s⟩) :=
  ⟨rfl, rfl, rfl, rfl⟩

/-- C5.  On one publisher instance the sequence counter starts at 0, a run
of publish calls advances it by exactly the number of successful
publishes, and the envelopes of the successful publishes carry strictly
consecutive sequence numbers starting at the initial counter value (so
from a fresh instance, exactly 0, 1, ..., n-1). -/
theorem publish_sequence_numbers (st0 : ZmqPublisher)
    (inputs : List (PerceptionFrame × PublishIO)) (tag : String) :
    (ZmqPublisher.new tag).sequence_number = 0 ∧
    (runPublishes st0 inputs).1.sequence_number
        = st0.sequence_number + (runPublishes st0 inputs).2.length ∧
    (runPublishes st0 inputs).2.map MessageEnvelope.sequence_number
        = (List.range (runPublishes st0 inputs).2.length).map
            (st0.sequence_number + ·) :=
  ⟨rfl, (runPublishes_spec inputs st0).1, (runPublishes_spec inputs st0).2⟩

/-- C6.  Every Detection contained in a PerceptionFrame emitted by
postprocessing has confidence (= obj_conf * max_score) at least the
configured confidence threshold: candidates failing either check are
discarded before NMS, and NMS only removes candidates. -/
theorem emitted_detection_meets_threshold (cfg : InferenceConfig)
    (out : OutputTensor) (i : ℕ) (frame : CameraFrame) (elapsedMs : F32)
    (d : Detection)
    (hd : d ∈ (postprocessFrame cfg out i frame elapsedMs).detections) :
    cfg.confidence_threshold ≤ d.confidence := by
  have h1 : d ∈ (List.range out.shape1).filterMap (candidateDetection cfg out i frame) := by
    apply mem_of_mem_apply_nms
    simpa [postprocessFrame, PerceptionFrame.new] using hd
  obtain ⟨j, _, hj⟩ := List.mem_filterMap.mp h1
  exact candidateDetection_conf hj

/-- C6 witness: on the single-candidate fixture the emitted detection detW
indeed meets the threshold 1/2. -/
theorem emitted_detection_meets_threshold_witness :
    cfgW.confidence_threshold ≤ detW.confidence :=
  emitted_detection_meets_threshold cfgW outW 0 fW 0 detW
    (by rw [detectionsW]; exact List.mem_cons_self _ _)

/-- C7 counterexample.  The box decode of (cx, cy, w, h) =
(1/2, 1/2, 1/5, 2/5) on a 640x480 frame yields (256, 144, 384, 336), not
approximately (224, 96, 416, 288) as claimed: the coordinates are off by
32, 48, -32 and 48 pixels respectively. -/
theorem box_decode_example_mismatch :
    decodeBox (1/2) (1/2) (1/5) (2/5) 640 480 = BBox.new 256 144 384 336 ∧
    (decodeBox (1/2) (1/2) (1/5) (2/5) 640 480).xmin - 224 = 32 ∧
    (decodeBox (1/2) (1/2) (1/5) (2/5) 640 480).ymin - 96 = 48 ∧
    (decodeBox (1/2) (1/2) (1/5) (2/5) 640 480).xmax - 416 = -32 ∧
    (decodeBox (1/2) (1/2) (1/5) (2/5) 640 480).ymax - 288 = 48 := by
  refine ⟨?_, ?_, ?_, ?_, ?_⟩ <;> norm_num [decodeBox, BBox.new]

/-- C7 as amended.  Every emitted candidate's box is the claimed formula
xmin = (cx - w/2) * W, ymin = (cy - h/2) * H, xmax = (cx + w/2) * W,
ymax = (cy + h/2) * H over the source frame's dimensions, and the
concrete input (1/2, 1/2, 1/5, 2/5) on 640x480 decodes to
(256, 144, 384, 336). -/
theorem box_decode_formula :
    (∀ (cfg : InferenceConfig) (out : OutputTensor) (i j : ℕ)
        (frame : CameraFrame) (d : Detection),
        candidateDetection cfg out i frame j = some d →
          d.bbox = BBox.new ((out.val i j 0 - out.val i j 2 / 2) * frame.width)
            ((out.val i j 1 - out.val i j 3 / 2) * frame.height)
            ((out.val i j 0 + out.val i j 2 / 2) * frame.width)
            ((out.val i j 1 + out.val i j 3 / 2) * frame.height)) ∧
    decodeBox (1/2) (1/2) (1/5) (2/5) 640 480 = BBox.new 256 144 384 336 := by
  constructor
  · intro cfg out i j frame d h
    simp only [candidateDetection] at h
    split at h
    · exact absurd h (by simp)
    · split at h
      · exact absurd h (by simp)
      · obtain rfl := Option.some.inj h
        rfl
  · norm_num [decodeBox, BBox.new]

/-- C7 witness: the fixture candidate detW carries exactly the
formula-decoded box of its tensor values. -/
theorem box_decode_formula_witness :
    detW.bbox = BBox.new ((outW.val 0 0 0 - outW.val 0 0 2 / 2) * fW.width)
      ((outW.val 0 0 1 - outW.val 0 0 3 / 2) * fW.height)
      ((outW.val 0 0 0 + outW.val 0 0 2 / 2) * fW.width)
      ((outW.val 0 0 1 + outW.val 0 0 3 / 2) * fW.height) :=
  box_decode_formula.1 cfgW outW 0 0 fW detW candW

/-- C8.  The (spec-modelled) class-grouped greedy NMS is idempotent:
applying it to its own output returns that output unchanged, hence the
same set. -/
theorem apply_nms_idempotent (thr : F32) (dets : List Detection) :
    apply_nms thr (apply_nms thr dets) = apply_nms thr dets := by
  unfold apply_nms
  have hs : List.Sorted confGe (nmsFilter thr [] (List.insertionSort confGe dets)) :=
    List.Pairwise.sublist (nmsFilter_sublist thr (List.insertionSort confGe dets) [])
      (List.sorted_insertionSort confGe dets)
  rw [List.Sorted.insertionSort_eq hs, nmsFilter_idem]

/-- C9 counterexample.  BBox::new stores its arguments unchecked: the box
new(5, 0, 1, 0) violates xmax ≥ xmin and has width -4 < 0. -/
theorem bbox_constructor_unchecked :
    (BBox.new 5 0 1 0).width = -4 ∧
    (BBox.new 5 0 1 0).width < 0 ∧
    ¬ (BBox.new 5 0 1 0).xmin ≤ (BBox.new 5 0 1 0).xmax := by
  refine ⟨?_, ?_, ?_⟩ <;> norm_num [BBox.new, BBox.width]

/-- C9 as amended.  The invariant is conditional, not enforced: width,
height and area of a constructed box are nonnegative whenever
xmax ≥ xmin and ymax ≥ ymin, and a decode-pipeline box satisfies
xmin ≤ xmax and ymin ≤ ymax whenever the candidate's normalized w and h
are nonnegative. -/
theorem bbox_derived_nonneg :
    (∀ a b c d : F32, a ≤ c → b ≤ d →
        0 ≤ (BBox.new a b c d).width ∧ 0 ≤ (BBox.new a b c d).height ∧
        0 ≤ (BBox.new a b c d).area) ∧
    (∀ (x y w h : F32) (W H : ℕ), 0 ≤ w → 0 ≤ h →
        (decodeBox x y w h W H).xmin ≤ (decodeBox x y w h W H).xmax ∧
        (decodeBox x y w h W H).ymin ≤ (decodeBox x y w h W H).ymax) := by
  constructor
  · intro a b c d hac hbd
    simp only [BBox.new, BBox.width, BBox.height, BBox.area]
    refine ⟨by linarith, by linarith, mul_nonneg (by linarith) (by linarith)⟩
  · intro x y w h W H hw hh
    simp only [decodeBox, BBox.new]
    constructor
    · apply mul_le_mul_of_nonneg_right _ (Nat.cast_nonneg W)
      linarith
    · apply mul_le_mul_of_nonneg_right _ (Nat.cast_nonneg H)
      linarith

/-- C9 witness: the amended invariant applied at concrete inputs, the
box (1, 2, 3, 4) and the decoded candidate (1/2, 1/2, 1/5, 2/5) on
640x480. -/
theorem bbox_derived_nonneg_witness :
    (0 ≤ (BBox.new 1 2 3 4).width ∧ 0 ≤ (BBox.new 1 2 3 4).height ∧
      0 ≤ (BBox.new 1 2 3 4).area) ∧
    ((decodeBox (1/2) (1/2) (1/5) (2/5) 640 480).xmin
        ≤ (decodeBox (1/2) (1/2) (1/5) (2/5) 640 480).xmax ∧
      (decodeBox (1/2) (1/2) (1/5) (2/5) 640 480).ymin
        ≤ (decodeBox (1/2) (1/2) (1/5) (2/5) 640 480).ymax) :=
  ⟨bbox_derived_nonneg.1 1 2 3 4 (by norm_num) (by norm_num),
   bbox_derived_nonneg.2 (1/2) (1/2) (1/5) (2/5) 640 480 (by norm_num) (by norm_num)⟩

/-- C10.  After every call to process_frame — success or error, whatever
the oracles do — the pending buffer is empty: each invocation
unconditionally flushes the batch containing the frame it just
appended. -/
theorem process_frame_clears_pending {τ : Type} (cfg : InferenceConfig)
    (pre : CameraFrame → Except PerceptionError τ)
    (infer : List τ → Except PerceptionError OutputTensor)
    (elapsedMs : F32) (bp : BatchProcessor) (frame : CameraFrame) (now : ℕ) :
    (processFrame cfg pre infer elapsedMs bp frame now).state.pending_frames = [] := by
  simp only [processFrame]
  rw [ite_self]
  exact (processBatch_clears cfg pre infer elapsedMs _ (by simp)).1

end AetherForge
